import Mathlib

/-!
Verification of src/scripts/connect.cpp, a DuckDB smoke-test program.

The program is:

    int main() {
        try {
            DuckDB db("my_duck_database.db");
            Connection con(db);
            // (commented-out query block)
        } catch (std::exception &ex) {
            std::cerr << "Exception: " << ex.what() << std::endl;
            return 1;
        }
        return 0;
    }

The shallow embedding below models one process run as a function of the
outcomes of the two engine constructor calls (database open, connection open):
each either succeeds or throws a value. The top-level handler matches only
values derived from std::exception, so thrown values are split into exactly
the two classes the handler distinguishes. A run yields a trace of resource
and query events, the text written to each stream, the process outcome, and
whether the catch block executed. C++ semantics embedded: if the Connection
constructor throws, stack unwinding destroys the already-constructed DuckDB
object before the handler runs; if no handler matches, std::terminate is
reached without the handler executing.
-/

/-- A value thrown by an engine constructor call. The handler in main is
written catch (std::exception &ex), so it matches a value derived from
std::exception (carrying its what() message) and nothing else. -/
inductive Thrown where
  | stdExc (msg : String)
  | nonStd
deriving DecidableEq

/-- Observable events of one process run. The query and resultCreated events
correspond to the commented-out query block of main; the active code path
never emits them. -/
inductive Event where
  | openDB (path : String)
  | openCon
  | releaseCon
  | releaseDB
  | query (sql : String)
  | resultCreated
deriving DecidableEq

/-- How the process run ends: normal termination with an exit code, or an
uncaught exception escaping main (std::terminate, no exit code produced by
the program's own return statements). -/
inductive Outcome where
  | exited (code : Nat)
  | uncaught
deriving DecidableEq

/-- The observable result of one process run. -/
structure RunResult where
  events : List Event
  stdout : String
  stderr : String
  outcome : Outcome
  caught : Bool
deriving DecidableEq

/-- The fixed literal file path passed to the DuckDB constructor in main. -/
def dbPath : String := "my_duck_database.db"

/-- The embedding of main, line by line. dbR is the outcome of the DuckDB
constructor on dbPath (none = constructed, some t = threw t); conR is the
outcome of the Connection constructor, consulted only if the database handle
was constructed. Destructor events follow C++ scope rules: on the success
path both handles are destroyed at scope exit in reverse order; if the
Connection constructor throws a std::exception, unwinding destroys the
database handle before the catch block runs; an unmatched thrown value
reaches std::terminate without unwinding. -/
def run (dbR conR : Option Thrown) : RunResult :=
  match dbR with
  | some (Thrown.stdExc msg) =>
      { events := []
        stdout := ""
        stderr := "Exception: " ++ (msg ++ "\n")
        outcome := Outcome.exited 1
        caught := true }
  | some Thrown.nonStd =>
      { events := []
        stdout := ""
        stderr := ""
        outcome := Outcome.uncaught
        caught := false }
  | none =>
      match conR with
      | some (Thrown.stdExc msg) =>
          { events := [Event.openDB dbPath, Event.releaseDB]
            stdout := ""
            stderr := "Exception: " ++ (msg ++ "\n")
            outcome := Outcome.exited 1
            caught := true }
      | some Thrown.nonStd =>
          { events := [Event.openDB dbPath]
            stdout := ""
            stderr := ""
            outcome := Outcome.uncaught
            caught := false }
      | none =>
          { events := [Event.openDB dbPath, Event.openCon,
                       Event.releaseCon, Event.releaseDB]
            stdout := ""
            stderr := ""
            outcome := Outcome.exited 0
            caught := false }

/-- main is declared int main() with no parameters: whatever arguments the
operating system supplies are never read, so a run is the same function of
the engine outcomes for every argument vector. -/
def runWithArgs (args : List String) (dbR conR : Option Thrown) : RunResult :=
  run dbR conR

/-- The full event trace of the success path: acquisition in order, release
in reverse order. -/
def canonicalTrace : List Event :=
  [Event.openDB dbPath, Event.openCon, Event.releaseCon, Event.releaseDB]

/-- Modelled from the spec: the state of the database file at the fixed path
as the embedded engine (an external collaborator, not code under src/)
exposes it — absent (fresh, creatable), a cleanly closed valid database
file, corrupted, or at an unwritable location. -/
inductive FileStatus where
  | absent
  | validDb
  | corrupted
  | unwritable
deriving DecidableEq

/-- Modelled from the spec: the engine's database-open semantics. Opening
creates the file if absent (create-if-missing), succeeds on a cleanly closed
valid file, and fails with an open/IO error signalled as a std::exception if
the path is unwritable or the file corrupted. The second component is the
file state after the run closes cleanly: a successful open followed by a
clean close leaves a valid database file. -/
def engineOpen : FileStatus → Option Thrown × FileStatus
  | FileStatus.absent =>
      (none, FileStatus.validDb)
  | FileStatus.validDb =>
      (none, FileStatus.validDb)
  | FileStatus.corrupted =>
      (some (Thrown.stdExc "IO Error: database file is corrupted"),
       FileStatus.corrupted)
  | FileStatus.unwritable =>
      (some (Thrown.stdExc "IO Error: cannot open database file"),
       FileStatus.unwritable)

/-- One full process run of the program against a file state: the engine
model decides the database-open outcome from the file state, the
connection-open outcome is a parameter, and the file state after the run is
returned alongside the observable run result. -/
def processRun (st : FileStatus) (conR : Option Thrown) :
    RunResult × FileStatus :=
  (run (engineOpen st).1 conR, (engineOpen st).2)

/-- Claim C1: in every run in which an error is caught at the top-level
boundary, the program writes a diagnostic line beginning with "Exception: "
to the error stream and terminates with exit code 1, with no output on the
standard stream and no recovery action. -/
theorem c1_caught_error_exits_one (dbR conR : Option Thrown)
    (h : (run dbR conR).caught = true) :
    (run dbR conR).outcome = Outcome.exited 1 ∧
    (run dbR conR).stdout = "" ∧
    ∃ m, (run dbR conR).stderr = "Exception: " ++ m := by
  cases dbR with
  | some t =>
      cases t with
      | stdExc m => exact ⟨rfl, rfl, m ++ "\n", rfl⟩
      | nonStd => simp [run] at h
  | none =>
      cases conR with
      | some t =>
          cases t with
          | stdExc m => exact ⟨rfl, rfl, m ++ "\n", rfl⟩
          | nonStd => simp [run] at h
      | none => simp [run] at h

/-- Witness for C1 at a concrete caught error: a std::exception with message
"boom" thrown by the database constructor. -/
theorem c1_witness :
    (run (some (Thrown.stdExc "boom")) none).caught = true ∧
    ((run (some (Thrown.stdExc "boom")) none).outcome = Outcome.exited 1 ∧
     (run (some (Thrown.stdExc "boom")) none).stdout = "" ∧
     ∃ m, (run (some (Thrown.stdExc "boom")) none).stderr =
       "Exception: " ++ m) :=
  ⟨rfl, c1_caught_error_exits_one (some (Thrown.stdExc "boom")) none rfl⟩

/-- Counterexample to claim C2 as stated: a thrown value not derived from
std::exception during database open is not matched by the handler, so the
run escapes the boundary uncaught, with no diagnostic on the error stream
and no exit code 1 — refuting "any thrown error is mapped to a non-zero
process exit code and a diagnostic message" and "no error escapes the
boundary". -/
theorem c2_counterexample :
    (run (some Thrown.nonStd) none).outcome = Outcome.uncaught ∧
    (run (some Thrown.nonStd) none).caught = false ∧
    (run (some Thrown.nonStd) none).stderr = "" :=
  ⟨rfl, rfl, rfl⟩

/-- Claim C2 (amended): every error thrown as a std::exception during
database open or connection open is caught exactly once, at the single
top-level boundary, and mapped to process exit code 1 with a diagnostic
message on the error stream; none of these is recovered locally — the run
never continues past the throwing constructor (no connection event follows a
database-open failure). -/
theorem c2_std_errors_caught_once (m : String) (conR : Option Thrown) :
    ((run (some (Thrown.stdExc m)) conR).caught = true ∧
     (run (some (Thrown.stdExc m)) conR).outcome = Outcome.exited 1 ∧
     (run (some (Thrown.stdExc m)) conR).stderr = "Exception: " ++ (m ++ "\n") ∧
     Event.openCon ∉ (run (some (Thrown.stdExc m)) conR).events) ∧
    ((run none (some (Thrown.stdExc m))).caught = true ∧
     (run none (some (Thrown.stdExc m))).outcome = Outcome.exited 1 ∧
     (run none (some (Thrown.stdExc m))).stderr = "Exception: " ++ (m ++ "\n") ∧
     Event.openCon ∉ (run none (some (Thrown.stdExc m))).events) := by
  refine ⟨⟨rfl, rfl, rfl, ?_⟩, ⟨rfl, rfl, rfl, ?_⟩⟩
  · simp [run]
  · simp [run]

/-- Claim C3: a run in which the database handle and the connection handle
are both constructed successfully (and no query is executed) terminates with
exit code 0, produces no output on either stream, and never enters the catch
block. -/
theorem c3_success_exits_zero_silent :
    (run none none).outcome = Outcome.exited 0 ∧
    (run none none).stdout = "" ∧
    (run none none).stderr = "" ∧
    (run none none).caught = false :=
  ⟨rfl, rfl, rfl, rfl⟩

/-- Helper: every run's event trace is an ordered subsequence of the
canonical trace. -/
theorem run_events_sublist (dbR conR : Option Thrown) :
    List.Sublist (run dbR conR).events canonicalTrace := by
  cases dbR with
  | some t => cases t <;> simp [run]
  | none =>
      cases conR with
      | some t =>
          cases t with
          | stdExc m =>
              show List.Sublist [Event.openDB dbPath, Event.releaseDB]
                canonicalTrace
              exact List.Sublist.cons₂ _ (List.Sublist.cons _
                (List.Sublist.cons _ (List.Sublist.refl _)))
          | nonStd =>
              show List.Sublist [Event.openDB dbPath] canonicalTrace
              exact List.Sublist.cons₂ _ (List.nil_sublist _)
      | none => exact List.Sublist.refl _

/-- Claim C4: in every run the connection handle's lifetime is strictly
nested within the database handle's lifetime. Every trace is an ordered
subsequence of the canonical trace open-database, open-connection,
release-connection, release-database — so the connection is constructed only
after the database and every connection event precedes the database release
— and whenever the connection is constructed at all, the trace is exactly
the canonical one, releasing the connection before the database. -/
theorem c4_nested_lifetimes (dbR conR : Option Thrown) :
    List.Sublist (run dbR conR).events canonicalTrace ∧
    (Event.openCon ∈ (run dbR conR).events →
      (run dbR conR).events = canonicalTrace) := by
  refine ⟨run_events_sublist dbR conR, ?_⟩
  intro h
  cases dbR with
  | some t => cases t <;> simp [run] at h
  | none =>
      cases conR with
      | some t => cases t <;> simp [run] at h
      | none => rfl

/-- Witness for C4 at the concrete success run, discharging the membership
hypothesis of the nested conjunct. -/
theorem c4_witness :
    (run none none).events = canonicalTrace :=
  (c4_nested_lifetimes none none).2 (by decide)

/-- Counterexample to claim C5 as stated: the fixed literal path in the code
is "my_duck_database.db", not the spec's "test.db"; the success run's first
event opens "my_duck_database.db". -/
theorem c5_counterexample :
    dbPath = "my_duck_database.db" ∧
    dbPath ≠ "test.db" ∧
    (run none none).events.head? = some (Event.openDB "my_duck_database.db") := by
  refine ⟨rfl, ?_, rfl⟩
  decide

/-- Claim C5 (amended): the program parses no command-line arguments — a run
is the same for every argument vector — and opens its database at the fixed
literal path "my_duck_database.db"; a run in which that path is fresh and
creatable exits 0 with no error-stream output. -/
theorem c5_fixed_path_no_args (args : List String) (dbR conR : Option Thrown) :
    runWithArgs args dbR conR = run dbR conR ∧
    dbPath = "my_duck_database.db" ∧
    (processRun FileStatus.absent none).1.outcome = Outcome.exited 0 ∧
    (processRun FileStatus.absent none).1.stderr = "" :=
  ⟨rfl, rfl, rfl, rfl⟩

/-- Claim C6: if opening the database fails with an open/IO error (a
std::exception from the engine), the failure propagates to the top-level
boundary — exit code 1 and the diagnostic line — with no local handling, and
the connection-open operation is never reached: the trace is empty and the
whole run is independent of the connection constructor's outcome. -/
theorem c6_open_failure_propagates (m : String) (conR : Option Thrown) :
    (run (some (Thrown.stdExc m)) conR).outcome = Outcome.exited 1 ∧
    (run (some (Thrown.stdExc m)) conR).stderr = "Exception: " ++ (m ++ "\n") ∧
    (run (some (Thrown.stdExc m)) conR).events = [] ∧
    Event.openCon ∉ (run (some (Thrown.stdExc m)) conR).events ∧
    run (some (Thrown.stdExc m)) conR = run (some (Thrown.stdExc m)) none := by
  refine ⟨rfl, rfl, rfl, ?_, rfl⟩
  simp [run]

/-- Claim C7: control flow is strictly linear — every trace is an ordered
subsequence of open-database, open-connection, release-connection,
release-database — and no query is ever executed: no query event for any SQL
string and no result-set creation event occurs in any run. -/
theorem c7_linear_no_query (dbR conR : Option Thrown) :
    List.Sublist (run dbR conR).events canonicalTrace ∧
    (∀ q : String, Event.query q ∉ (run dbR conR).events) ∧
    Event.resultCreated ∉ (run dbR conR).events := by
  refine ⟨run_events_sublist dbR conR, ?_, ?_⟩
  · intro q
    cases dbR with
    | some t => cases t <;> simp [run]
    | none =>
        cases conR with
        | some t => cases t <;> simp [run]
        | none => simp [run]
  · cases dbR with
    | some t => cases t <;> simp [run]
    | none =>
        cases conR with
        | some t => cases t <;> simp [run]
        | none => simp [run]

/-- Claim C8: two full process runs in sequence against the same database
path both exit 0 and leave a valid (uncorrupted) database file, assuming the
first run closed cleanly (exited 0). The engine's open semantics are
modelled from the spec, as the engine is an external collaborator. -/
theorem c8_idempotent_reopen (st : FileStatus)
    (h : (processRun st none).1.outcome = Outcome.exited 0) :
    (processRun (processRun st none).2 none).1.outcome = Outcome.exited 0 ∧
    (processRun (processRun st none).2 none).2 = FileStatus.validDb := by
  cases st with
  | absent => exact ⟨rfl, rfl⟩
  | validDb => exact ⟨rfl, rfl⟩
  | corrupted => exact absurd h (by decide)
  | unwritable => exact absurd h (by decide)

/-- Witness for C8 at a fresh, creatable path: the first run exits cleanly,
and the second run also exits 0 leaving a valid database file. -/
theorem c8_witness :
    (processRun FileStatus.absent none).1.outcome = Outcome.exited 0 ∧
    (processRun (processRun FileStatus.absent none).2 none).1.outcome =
      Outcome.exited 0 ∧
    (processRun (processRun FileStatus.absent none).2 none).2 =
      FileStatus.validDb :=
  ⟨rfl, c8_idempotent_reopen FileStatus.absent rfl⟩

/-- Claim C9: the top-level boundary catches only values derived from
std::exception. A thrown value not derived from std::exception — whether
thrown during database open or during connection open — is not matched by
the handler: the run escapes uncaught, the catch block never executes, and
no diagnostic is written, so the run does not terminate via the
diagnostic-plus-exit-code-1 path. -/
theorem c9_nonstd_escapes (conR : Option Thrown) :
    ((run (some Thrown.nonStd) conR).outcome = Outcome.uncaught ∧
     (run (some Thrown.nonStd) conR).caught = false ∧
     (run (some Thrown.nonStd) conR).stderr = "") ∧
    ((run none (some Thrown.nonStd)).outcome = Outcome.uncaught ∧
     (run none (some Thrown.nonStd)).caught = false ∧
     (run none (some Thrown.nonStd)).stderr = "") :=
  ⟨⟨rfl, rfl, rfl⟩, ⟨rfl, rfl, rfl⟩⟩

/-- Claim C10: the connection constructor is invoked only in runs where the
database constructor completed without throwing, and then the trace is
exactly the canonical one: the database is opened immediately before the
connection and released only after the connection is released, so the
open-connection precondition (a valid, live database handle) holds in every
run that reaches it. -/
theorem c10_con_precondition (dbR conR : Option Thrown)
    (h : Event.openCon ∈ (run dbR conR).events) :
    dbR = none ∧ (run dbR conR).events = canonicalTrace := by
  cases dbR with
  | some t => cases t <;> simp [run] at h
  | none =>
      cases conR with
      | some t => cases t <;> simp [run] at h
      | none => exact ⟨rfl, rfl⟩

/-- Witness for C10 at the concrete success run, discharging the membership
hypothesis. -/
theorem c10_witness :
    (none : Option Thrown) = none ∧ (run none none).events = canonicalTrace :=
  c10_con_precondition none none (by decide)
